import Mathlib

/-!
Shallow embedding of the core of `HepBChat_refined.py`: the rule-based
intent classifier (`classify_intent_v2`), the CSV answer composer
(`pick_csv_answer`, `response_for_intent`) and the risk-screen session
machine (`start_risk_screen`, `answer_risk`, `stop_risk`, `chat`).

Python floats (scores, confidences) are modelled as exact rationals `ℚ`;
Python `set`s as `Finset String`; the in-memory `SESSIONS` dict as a
function `String → Option SessionState`; the regex engine (`re.search`)
as an abstract match oracle passed in as a parameter; the CSV knowledge
table (external data loaded at startup) as a parameter
`String → List CsvEntry`.
-/

namespace HepB

/-- The ASCII whitespace characters matched by Python's `\s` (and stripped
by `str.strip`) on the inputs this model covers. -/
def isPySpace (c : Char) : Bool :=
  c = ' ' || c = '\t' || c = '\n' || c = '\r' || c = '\x0b' || c = '\x0c'

/-- Python `str.strip()`: drop leading and trailing whitespace. -/
def pyStrip (s : String) : String :=
  ⟨((s.data.dropWhile (fun c => isPySpace c)).reverse.dropWhile
      (fun c => isPySpace c)).reverse⟩

/-- The `re.sub(r"[’']", "'", ·)` followed by `re.sub(r"[-–—]", "-", ·)`,
as a single per-character map (both substitutions are per-character). -/
def unifyChar (c : Char) : Char :=
  if c = '’' ∨ c = '\'' then '\''
  else if c = '-' ∨ c = '–' ∨ c = '—' then '-'
  else c

/-- The `re.sub(r"[^a-z0-9\s-]", " ", ·)`: keep lowercase alphanumerics,
hyphen and whitespace; replace everything else by a space. -/
def keepChar (c : Char) : Char :=
  if ('a' ≤ c ∧ c ≤ 'z') ∨ ('0' ≤ c ∧ c ≤ '9') ∨ c = '-' ∨ isPySpace c then c
  else ' '

/-- The `re.sub(r"\s+", " ", ·)`: collapse each maximal whitespace run to a
single space.  The boolean records whether the previous kept character
came from a whitespace run. -/
def collapseWsAux : Bool → List Char → List Char
  | _, [] => []
  | prevSpace, c :: cs =>
    if isPySpace c then
      if prevSpace then collapseWsAux true cs
      else ' ' :: collapseWsAux true cs
    else c :: collapseWsAux false cs

/-- The `normalize` from the source: lowercase, unify apostrophe/dash
variants, strip characters outside `[a-z0-9\s-]`, collapse whitespace,
trim. -/
def normalize (text : String) : String :=
  let t1 := text.data.map Char.toLower
  let t2 := t1.map unifyChar
  let t3 := t2.map keepChar
  let t4 := collapseWsAux false t3
  ⟨((t4.dropWhile isPySpace).reverse.dropWhile isPySpace).reverse⟩

/-- Python `str.split()` with no argument: split on whitespace runs,
producing no empty pieces.  The accumulator holds the current word,
reversed. -/
def splitWsAux : List Char → List Char → List String
  | acc, [] => if acc = [] then [] else [⟨acc.reverse⟩]
  | acc, c :: cs =>
    if isPySpace c then
      if acc = [] then splitWsAux [] cs
      else (⟨acc.reverse⟩ : String) :: splitWsAux [] cs
    else splitWsAux (c :: acc) cs

/-- The `STOPWORDS` from the source. -/
def STOPWORDS : List String :=
  ["the", "a", "an", "to", "for", "of", "and", "or", "is", "are", "in",
   "on", "with", "about", "what", "how", "does", "do", "can", "i", "you",
   "it", "be", "get", "from", "when", "if", "my", "your", "this", "that",
   "b", "hep", "hepatitis"]

/-- The `tokenize` from the source: split the normalized text on whitespace
and drop empty tokens and stopwords. -/
def tokenize (text : String) : List String :=
  let t := normalize text
  (splitWsAux [] t.data).filter (fun tok => tok ≠ "" && !(STOPWORDS.contains tok))

/-- One intent's configuration record (`INTENT_CONFIG[intent]`): its name,
regex patterns, example questions from the CSV, and derived keyword set
(modelled as a list whose `toFinset` is the Python set). -/
structure IntentCfg where
  name : String
  patterns : List String
  examples : List String
  keywords : List String
deriving DecidableEq, Repr

/-- The `sum(1 for p in patterns if re.search(p, text_norm, flags=re.IGNORECASE))`,
with the regex engine abstracted as the oracle `search`. -/
def patHits (search : String → String → Bool) (patterns : List String)
    (text_norm : String) : Nat :=
  patterns.countP (fun p => search p text_norm)

/-- The `len(token_set & keywords)` for one intent. -/
def kwHits (token_set : Finset String) (keywords : List String) : Nat :=
  (token_set ∩ keywords.toFinset).card

/-- The `ex_overlap` loop of `classify_intent_v2`: running maximum of
`len(set(tokenize(ex)) & token_set)` over the intent's examples,
starting from `0`, updated only on a strictly larger overlap. -/
def exOverlap (token_set : Finset String) (examples : List String) : Nat :=
  examples.foldl
    (fun m ex =>
      let overlap := ((tokenize ex).toFinset ∩ token_set).card
      if overlap > m then overlap else m) 0

/-- One intent's score in `classify_intent_v2`:
`2.0 * pat_hits + 1.0 * kw_hits + 0.8 * ex_overlap`, floats as `ℚ`. -/
def intentScore (search : String → String → Bool) (cfg : IntentCfg)
    (text_norm : String) (token_set : Finset String) : ℚ :=
  2 * (patHits search cfg.patterns text_norm : ℚ)
    + 1 * (kwHits token_set cfg.keywords : ℚ)
    + (8 / 10) * (exOverlap token_set cfg.examples : ℚ)

/-- The selection loop of `classify_intent_v2`: running best
`(intent, score)` initialized to `("greeting", 0.0)`, replaced only on a
strictly greater score. -/
def classifyFold (search : String → String → Bool) (cfgs : List IntentCfg)
    (text_norm : String) (token_set : Finset String) : String × ℚ :=
  cfgs.foldl
    (fun best cfg =>
      let score := intentScore search cfg text_norm token_set
      if score > best.2 then (cfg.name, score) else best)
    ("greeting", (0 : ℚ))

/-- The `classify_intent_v2` from the source, parameterized by the regex
oracle and the intent configuration list (iterated in its fixed
insertion order). -/
def classify_intent_v2 (search : String → String → Bool)
    (cfgs : List IntentCfg) (text : String) : String × ℚ :=
  if pyStrip text = "" then ("greeting", 0)
  else
    let text_norm := normalize text
    let token_set := (tokenize text).toFinset
    let best := classifyFold search cfgs text_norm token_set
    if best.2 ≤ 0 then ("greeting", 0)
    else (best.1, min 1 (best.2 / 8))

/-- One row of `CSV_KNOWLEDGE[intent]` (fields already stripped at load
time by `load_knowledge_csv`, but `pick_csv_answer` strips again). -/
structure CsvEntry where
  question_example : String
  answer_summary : String
  source : String
deriving DecidableEq, Repr

/-- The CSV knowledge table, keyed by intent: external data loaded at
startup, so a parameter of the model.  An intent absent from the table is
mapped to `[]` (in the source, `CSV_KNOWLEDGE.get(intent)` returning
`None` and returning an empty list are both falsy). -/
def CsvKnowledge := String → List CsvEntry

/-- The `BASE_KNOWLEDGE` from the source: the generic per-intent answer
table. -/
def BASE_KNOWLEDGE : List (String × String) :=
  [("greeting",
    "Hi! I’m an educational Hepatitis B assistant. I can explain transmission, symptoms, testing, vaccination, and general treatment concepts. What would you like to know?"),
   ("transmission",
    "Hepatitis B spreads through blood or certain body fluids. Common routes include: birth from an infected parent, unprotected sex, sharing needles or other drug-use equipment, needlestick injuries, and sharing items like razors that may have blood. It is NOT spread by casual contact, hugging, coughing, or sharing utensils."),
   ("symptoms",
    "Many people—especially children—have no symptoms. When symptoms occur, they can include fatigue, poor appetite, nausea, right-upper-abdomen discomfort, dark urine, clay-colored stools, joint aches, and jaundice (yellow skin/eyes). Severe symptoms like confusion, easy bleeding, or severe abdominal pain are urgent—seek care immediately."),
   ("testing",
    "Testing typically uses blood tests that look for viral antigens and antibodies (e.g., HBsAg, anti-HBs, anti-HBc). Your clinician may also check viral load (HBV DNA) and liver enzymes. Interpretation depends on combinations and timing—always review results with a clinician."),
   ("vaccination",
    "Safe and effective vaccines protect against Hep B. Many people complete a 2-, 3-, or 4-dose series depending on the product, age, and circumstances. If you’re unsure of your status, ask about getting vaccinated or checking anti-HBs after vaccination when recommended."),
   ("prevention",
    "Use condoms for sex, avoid sharing needles or injection equipment, don’t share razors or toothbrushes, cover open wounds, and ensure any tattoos/piercings are done with sterile equipment. Vaccination is the best prevention."),
   ("treatment",
    "Acute infection is usually monitored for spontaneous clearance. Chronic Hep B management focuses on preventing liver damage. Clinicians may monitor labs and sometimes prescribe antiviral medicines depending on viral load, liver enzyme levels, age, and fibrosis. Regular follow-up is important."),
   ("window",
    "During the early window period after exposure, some tests may be negative before turning positive. If you had a recent exposure, ask a clinician about the right timing for testing and whether post-exposure prophylaxis (PEP) applies."),
   ("lab_markers",
    "Common markers: HBsAg (surface antigen), anti-HBs (surface antibody), anti-HBc (core antibody, IgM vs IgG), HBeAg/anti-HBe, and HBV DNA (viral load). Patterns help distinguish susceptibility, immunity, acute vs chronic infection, and treatment response—interpret with a clinician."),
   ("urgent",
    "If you have severe abdominal pain, confusion, vomiting blood, black stools, yellowing skin/eyes with fever, or you’re pregnant with a possible exposure, seek urgent medical care or call local emergency services.")]

/-- The `BASE_KNOWLEDGE.get(intent, BASE_KNOWLEDGE["greeting"])`: the generic
answer for an intent, defaulting to the greeting text. -/
def genericAnswer (intent : String) : String :=
  match BASE_KNOWLEDGE.lookup intent with
  | some a => a
  | none => "Hi! I’m an educational Hepatitis B assistant. I can explain transmission, symptoms, testing, vaccination, and general treatment concepts. What would you like to know?"

/-- The selection loop of `pick_csv_answer`: running best
`(best_entry, best_score)` initialized to `(None, -1)`, replaced only on
a strictly greater token overlap (so the first of the intent's entries
wins ties). -/
def bestCsvEntry (entries : List CsvEntry) (user_text : String) :
    Option CsvEntry :=
  let user_tokens := (tokenize user_text).toFinset
  (entries.foldl
    (fun acc entry =>
      let overlap : ℤ :=
        (user_tokens ∩ (tokenize entry.question_example).toFinset).card
      if overlap > acc.2 then (some entry, overlap) else acc)
    ((none : Option CsvEntry), (-1 : ℤ))).1

/-- The rendering tail of `pick_csv_answer`:
`f"{ans} (Source: {src})"` when both stripped fields are truthy, else
`ans or None`. -/
def renderCsvEntry (entry : CsvEntry) : Option String :=
  let ans := pyStrip entry.answer_summary
  let src := pyStrip entry.source
  if ans ≠ "" ∧ src ≠ "" then some (ans ++ " (Source: " ++ src ++ ")")
  else if ans ≠ "" then some ans
  else none

/-- The `pick_csv_answer` from the source. -/
def pick_csv_answer (csv : CsvKnowledge) (intent user_text : String) :
    Option String :=
  let entries := csv intent
  if entries = [] then none
  else
    match bestCsvEntry entries user_text with
    | none => none
    | some entry => renderCsvEntry entry

/-- The fixed disclaimer suffix appended by `response_for_intent`. -/
def DISCLAIMER : String :=
  "\n\n— This is educational information, not medical advice. For personal guidance, please consult a clinician."

/-- The `response_for_intent` from the source: CSV answer when truthy
(non-`None` and non-empty), otherwise the generic answer; then the
disclaimer is appended. -/
def response_for_intent (csv : CsvKnowledge) (intent user_text : String) :
    String :=
  let base :=
    match pick_csv_answer csv intent user_text with
    | some a => if a = "" then genericAnswer intent else a
    | none => genericAnswer intent
  base ++ DISCLAIMER

/-- The two session states of the `SessionState` pydantic model. -/
inductive SState where
  | idle
  | risk_screen
deriving DecidableEq, Repr

/-- The `SessionState` pydantic model.  A fresh record
`SessionState(user_id=u)` is `⟨u, idle, 0, 0⟩`. -/
structure SessionState where
  user_id : String
  state : SState
  risk_index : Nat
  risk_score : Nat
deriving DecidableEq, Repr

/-- The `SESSIONS` in-memory store, as a map from user id to record. -/
def Sessions := String → Option SessionState

/-- The `SESSIONS[u] = s`. -/
def setSession (m : Sessions) (u : String) (s : SessionState) : Sessions :=
  fun v => if v = u then some s else m v

/-- The initially empty `SESSIONS` dict. -/
def initSessions : Sessions := fun _ => none

/-- The `RISK_QUESTIONS` from the source. -/
def RISK_QUESTIONS : List String :=
  ["Have you ever had a needlestick, shared needles, or used injection drugs?",
   "Have you had unprotected sex with a partner whose Hep B status you don’t know?",
   "Were you born in or have you lived for years in a region with higher Hep B prevalence?",
   "Has a clinician ever told you that your liver enzymes were high or that you have a liver disease?",
   "Are you currently pregnant or planning pregnancy?"]

/-- The `RISK_TIPS` from the source. -/
def RISK_TIPS : String :=
  "Based on screening answers, consider asking a clinician about Hep B testing (HBsAg, anti-HBs, anti-HBc) and vaccination if you’re not immune. Avoid sharing needles or razors, use condoms, and keep wounds covered."

/-- The three allowed answers of `RiskAnswerRequest`. -/
inductive Answer where
  | yes
  | no
  | skip
deriving DecidableEq, Repr

/-- The payload dict returned by `answer_risk`: either the
"next question" shape or the "done" shape, with the literal `status`
string carried explicitly. -/
inductive RiskPayload where
  | next (status : String) (question_index : Nat) (question : String)
      (progress : String) (session : SessionState)
  | done (status : String) (score : Nat) (level : String)
      (guidance : String) (disclaimer : String)
deriving DecidableEq, Repr

/-- The `HTTPException(400, ...)` detail raised by `answer_risk` without
an active screen. -/
def noActiveMsg : String := "No active risk screen. Call /risk/start first."

/-- The `start_risk_screen` from the source: unconditionally overwrite the
user's session with a fresh `risk_screen` record and return it. -/
def start_risk_screen (m : Sessions) (u : String) :
    SessionState × Sessions :=
  let state : SessionState := ⟨u, .risk_screen, 0, 0⟩
  (state, setSession m u state)

/-- The `answer_risk` from the source.  The pydantic record stored in
`SESSIONS` is mutated in place in the "next" branch; here the updated
record is written back explicitly.  The error is the raised
`HTTPException`. -/
def answer_risk (m : Sessions) (u : String) (a : Answer) :
    Except String RiskPayload × Sessions :=
  match m u with
  | none => (.error noActiveMsg, m)
  | some session =>
    if session.state ≠ .risk_screen then (.error noActiveMsg, m)
    else
      let session :=
        { session with
          risk_score :=
            if a = Answer.yes then session.risk_score + 1
            else session.risk_score }
      let session := { session with risk_index := session.risk_index + 1 }
      if h : session.risk_index < RISK_QUESTIONS.length then
        (.ok (.next "next" session.risk_index
              (RISK_QUESTIONS.get ⟨session.risk_index, h⟩)
              (toString session.risk_index ++ "/"
                ++ toString RISK_QUESTIONS.length)
              session),
         setSession m u session)
      else
        let total := session.risk_score
        let level :=
          if total ≥ 3 then "elevated"
          else if total = 2 then "moderate"
          else "low"
        (.ok (.done "done" total level RISK_TIPS
              "Educational only. Not medical advice."),
         setSession m u ⟨u, .idle, 0, 0⟩)

/-- The `stop_risk` from the source: unconditionally reset to a fresh idle
record and confirm. -/
def stop_risk (m : Sessions) (u : String) : String × Sessions :=
  ("stopped", setSession m u ⟨u, .idle, 0, 0⟩)

/-- The `ChatResponse` pydantic model. -/
structure ChatResponse where
  reply : String
  intent : String
  confidence : ℚ
deriving DecidableEq, Repr

/-- The fixed redirect reply returned by `chat` during an active risk
screen (the two adjacent Python string literals concatenated). -/
def RISK_REDIRECT : String :=
  "You have a risk screen in progress. Reply to /risk/answer with 'yes', 'no', or 'skip' to continue, or call /risk/stop to end it."

/-- The invitation appended by `chat` after the disclaimer for the
transmission, prevention and testing intents. -/
def RISK_INVITE : String :=
  "\n\nIf you’d like, I can run a 5-question anonymous risk screen. POST your user_id to /risk/start and then answer each question at /risk/answer."

/-- The `chat` from the source: short-circuit to the fixed redirect during an
active risk screen (classifier invoked only for its confidence),
otherwise classify, compose, and possibly append the risk-screen
invitation.  The session store is returned unchanged. -/
def chat (search : String → String → Bool) (cfgs : List IntentCfg)
    (csv : CsvKnowledge) (m : Sessions) (u message : String) :
    ChatResponse × Sessions :=
  match m u with
  | some session =>
    if session.state = .risk_screen then
      let r := classify_intent_v2 search cfgs message
      (⟨RISK_REDIRECT, "risk_screen", r.2⟩, m)
    else
      let r := classify_intent_v2 search cfgs message
      let text := response_for_intent csv r.1 message
      let text :=
        if r.1 = "transmission" ∨ r.1 = "prevention" ∨ r.1 = "testing" then
          text ++ RISK_INVITE
        else text
      (⟨text, r.1, r.2⟩, m)
  | none =>
    let r := classify_intent_v2 search cfgs message
    let text := response_for_intent csv r.1 message
    let text :=
      if r.1 = "transmission" ∨ r.1 = "prevention" ∨ r.1 = "testing" then
        text ++ RISK_INVITE
      else text
    (⟨text, r.1, r.2⟩, m)

/-! ### Spec-side definitions (written from the spec's words, for the
refinement claims) -/

/-- Spec: "maximum, over all of the intent's example questions, of the
token-overlap count between the utterance and that example"; 0 for an
intent with no examples. -/
def specMaxOverlap (examples : List String) (token_set : Finset String) :
    Nat :=
  (examples.map (fun ex => ((tokenize ex).toFinset ∩ token_set).card)).foldl
    max 0

/-- Spec: "score = 2.0 × (number of that intent's patterns matching the
normalized text, case-insensitive) + 1.0 × (size of intersection between
the utterance's token set and the intent's keyword set) + 0.8 × (maximum
token-overlap count with any of the intent's example questions)". -/
def specIntentScore (search : String → String → Bool) (cfg : IntentCfg)
    (text : String) : ℚ :=
  2 * (patHits search cfg.patterns (normalize text) : ℚ)
    + 1 * (((tokenize text).toFinset ∩ cfg.keywords.toFinset).card : ℚ)
    + (8 / 10) * (specMaxOverlap cfg.examples (tokenize text).toFinset : ℚ)

/-- Spec: "iterate intents in a fixed, deterministic configuration order;
track a running best (intent, score) initialized to (greeting, 0);
replace only on a strictly greater score". -/
def specSelect (search : String → String → Bool) (cfgs : List IntentCfg)
    (text : String) : String × ℚ :=
  cfgs.foldl
    (fun best cfg =>
      if specIntentScore search cfg text > best.2
      then (cfg.name, specIntentScore search cfg text) else best)
    ("greeting", (0 : ℚ))

/-! ### Remaining definitions: session operations run as sequences,
spec-side rules, and concrete witness fixtures -/

/-- The score update performed by `answer_risk`:
`if choice == yes: score += 1`. -/
def scoreAfter (s : SessionState) (a : Answer) : Nat :=
  if a = Answer.yes then s.risk_score + 1 else s.risk_score

/-- Spec-side threshold rule: "final score 0 or 1 → low; score exactly 2
→ moderate; score ≥ 3 → elevated". -/
def levelClaim (score : Nat) : String :=
  if score = 0 ∨ score = 1 then "low"
  else if score = 2 then "moderate"
  else "elevated"

/-- Run a sequence of `answer_risk` calls for one user, threading the
session store. -/
def runAnswers (m : Sessions) (u : String) : List Answer → Sessions
  | [] => m
  | a :: rest => runAnswers (answer_risk m u a).2 u rest

/-- Number of "yes" answers in a sequence. -/
def countYes (as : List Answer) : Nat :=
  as.countP (fun a => a == Answer.yes)

/-- The three session operations of the API. -/
inductive Op where
  | start (u : String)
  | answer (u : String) (a : Answer)
  | stop (u : String)
deriving DecidableEq, Repr

/-- The effect of one API call on the session store. -/
def applyOp (m : Sessions) : Op → Sessions
  | .start u => (start_risk_screen m u).2
  | .answer u a => (answer_risk m u a).2
  | .stop u => (stop_risk m u).2

/-- The session store after a sequence of API calls, starting from the
initially empty `SESSIONS` dict. -/
def runOps (ops : List Op) : Sessions :=
  ops.foldl applyOp initSessions

/-- The per-record invariant of C10. -/
def SessionInvariant (s : SessionState) : Prop :=
  s.risk_score ≤ s.risk_index ∧ s.risk_index ≤ 4 ∧
  (s.state = SState.idle → s.risk_index = 0 ∧ s.risk_score = 0)

/-- The store-wide invariant of C10. -/
def RegistryInvariant (m : Sessions) : Prop :=
  ∀ u s, m u = some s → SessionInvariant s

/-- The claim's rendering rule for the chosen CSV entry: both fields
non-empty → "ans (Source: src)", otherwise just the non-empty one of the
two fields, `none` (fall through) only when both are empty. -/
def renderClaim (e : CsvEntry) : Option String :=
  let ans := pyStrip e.answer_summary
  let src := pyStrip e.source
  if ans ≠ "" ∧ src ≠ "" then some (ans ++ " (Source: " ++ src ++ ")")
  else if ans ≠ "" then some ans
  else if src ≠ "" then some src
  else none

/-- The amended rendering rule, matching the code: both fields non-empty
→ "ans (Source: src)", otherwise the answer summary when it alone is
non-empty; when the answer summary is empty the entry renders to
nothing, even if the source is non-empty. -/
def renderAmended (e : CsvEntry) : Option String :=
  let ans := pyStrip e.answer_summary
  let src := pyStrip e.source
  if ans ≠ "" ∧ src ≠ "" then some (ans ++ " (Source: " ++ src ++ ")")
  else if ans ≠ "" then some ans
  else none

/-- Concrete witness fixture: an oracle matching exactly the pattern
`"w1"` against the normalized text `"hello"`. -/
def wSearch : String → String → Bool :=
  fun p t => p == "w1" && t == "hello"

/-- Concrete witness fixture: one configured intent with one pattern and
no keywords or examples. -/
def wCfg1 : IntentCfg := ⟨"transmission", ["w1"], [], []⟩

/-- Concrete witness fixture: the configuration list. -/
def wCfgs : List IntentCfg := [wCfg1]

/-- Concrete witness fixture: an empty CSV knowledge table. -/
def wCsv : CsvKnowledge := fun _ => []

/-- Counterexample fixture for C6: a single record whose answer summary
is empty but whose source is non-empty. -/
def csvC6 : CsvKnowledge :=
  fun i => if i = "transmission" then [⟨"", "", "CDC"⟩] else []

/-- Concrete fixture for the amended C6 witness: one fully populated
record. -/
def csvW : CsvKnowledge :=
  fun i => if i = "testing" then [⟨"q1", "Ans", "CDC"⟩] else []

/-! ### Helper lemmas about the classifier -/

theorem kwHits_eq (token_set : Finset String) (keywords : List String) :
    kwHits token_set keywords = (token_set ∩ keywords.toFinset).card := rfl

/-- The code's running-maximum loop over examples computes the maximum
overlap demanded by the spec. -/
theorem exOverlap_eq_specMaxOverlap (token_set : Finset String)
    (examples : List String) :
    exOverlap token_set examples = specMaxOverlap examples token_set := by
  unfold exOverlap specMaxOverlap
  rw [List.foldl_map]
  apply List.foldl_ext
  intro m ex _
  have : ((tokenize ex).toFinset ∩ token_set).card
      = (((tokenize ex).toFinset : Finset String) ∩ token_set).card := rfl
  by_cases h : ((tokenize ex).toFinset ∩ token_set).card > m
  · simp [h, Nat.max_eq_right (Nat.le_of_lt h)]
  · simp [h, Nat.max_eq_left (Nat.le_of_not_lt h)]

/-- The code's per-intent score equals the spec's per-intent score. -/
theorem intentScore_eq_spec (search : String → String → Bool)
    (cfg : IntentCfg) (text : String) :
    intentScore search cfg (normalize text) ((tokenize text).toFinset)
      = specIntentScore search cfg text := by
  unfold intentScore specIntentScore
  rw [kwHits_eq, exOverlap_eq_specMaxOverlap]

/-- The code's selection loop equals the spec's selection loop. -/
theorem classifyFold_eq_specSelect (search : String → String → Bool)
    (cfgs : List IntentCfg) (text : String) :
    classifyFold search cfgs (normalize text) ((tokenize text).toFinset)
      = specSelect search cfgs text := by
  unfold classifyFold specSelect
  apply List.foldl_ext
  intro b cfg _
  simp only [intentScore_eq_spec]

/-- The running best score never drops below the initial one. -/
theorem classifyFold_snd_le (search : String → String → Bool)
    (text_norm : String) (token_set : Finset String) :
    ∀ (cfgs : List IntentCfg) (b : String × ℚ),
      b.2 ≤ (cfgs.foldl
        (fun best cfg =>
          let score := intentScore search cfg text_norm token_set
          if score > best.2 then (cfg.name, score) else best) b).2
  | [], _ => le_refl _
  | cfg :: rest, b => by
    simp only [List.foldl_cons]
    refine le_trans ?_ (classifyFold_snd_le search text_norm token_set rest _)
    by_cases h : intentScore search cfg text_norm token_set > b.2
    · simp only [h, if_pos]
      exact le_of_lt h
    · simp only [h, if_neg, not_false_iff]
      exact le_refl _

/-- If every intent's score is `0`, the selection loop keeps its
initial best. -/
theorem classifyFold_of_all_zero (search : String → String → Bool)
    (text_norm : String) (token_set : Finset String)
    (cfgs : List IntentCfg)
    (h : ∀ cfg ∈ cfgs, intentScore search cfg text_norm token_set = 0) :
    classifyFold search cfgs text_norm token_set = ("greeting", (0 : ℚ)) := by
  unfold classifyFold
  induction cfgs with
  | nil => rfl
  | cons cfg rest ih =>
    simp only [List.foldl_cons]
    rw [h cfg (List.mem_cons_self cfg rest)]
    simp only [gt_iff_lt, lt_self_iff_false, if_false]
    exact ih (fun c hc => h c (List.mem_cons_of_mem cfg hc))

/-! ### Claim theorems for the classifier -/

/-- Claim C8: For every input text, the confidence returned by
`classify_intent_v2` satisfies `0.0 ≤ confidence ≤ 1.0`. -/
theorem classify_confidence_bounds (search : String → String → Bool)
    (cfgs : List IntentCfg) (text : String) :
    0 ≤ (classify_intent_v2 search cfgs text).2
      ∧ (classify_intent_v2 search cfgs text).2 ≤ 1 := by
  unfold classify_intent_v2
  by_cases h0 : pyStrip text = ""
  · simp [h0]
  · simp only [h0, if_false]
    set best := classifyFold search cfgs (normalize text)
      ((tokenize text).toFinset) with hbest
    by_cases h1 : best.2 ≤ 0
    · simp [h1]
    · simp only [h1, if_false]
      push_neg at h1
      constructor
      · exact le_min (by norm_num) (by positivity)
      · exact min_le_left _ _

/-- Claim C5: An input whose trimmed raw text is empty, or that matches
zero patterns, zero keywords and zero example overlap across all
intents, classifies as exactly `("greeting", 0.0)`. -/
theorem classify_no_signal_greeting (search : String → String → Bool)
    (cfgs : List IntentCfg) (text : String)
    (h : pyStrip text = "" ∨ ∀ cfg ∈ cfgs,
        patHits search cfg.patterns (normalize text) = 0 ∧
        kwHits ((tokenize text).toFinset) cfg.keywords = 0 ∧
        exOverlap ((tokenize text).toFinset) cfg.examples = 0) :
    classify_intent_v2 search cfgs text = ("greeting", 0) := by
  unfold classify_intent_v2
  by_cases h0 : pyStrip text = ""
  · simp [h0]
  · rcases h with h | h
    · exact absurd h h0
    · simp only [h0, if_false]
      have hz : ∀ cfg ∈ cfgs,
          intentScore search cfg (normalize text)
            ((tokenize text).toFinset) = 0 := by
        intro cfg hc
        obtain ⟨hp, hk, he⟩ := h cfg hc
        unfold intentScore
        rw [hp, hk, he]
        norm_num
      rw [classifyFold_of_all_zero search _ _ cfgs hz]
      norm_num

theorem wCfg1_score : specIntentScore wSearch wCfg1 "hello" = 2 := by
  have hp : patHits wSearch wCfg1.patterns (normalize "hello") = 1 := by
    decide
  have hk : (((tokenize "hello").toFinset : Finset String)
      ∩ wCfg1.keywords.toFinset).card = 0 := by decide
  have he : specMaxOverlap wCfg1.examples ((tokenize "hello").toFinset) = 0 :=
    rfl
  unfold specIntentScore
  rw [hp, hk, he]
  norm_num

theorem wSelect_eq : specSelect wSearch wCfgs "hello" = ("transmission", 2) := by
  unfold specSelect wCfgs
  simp only [List.foldl_cons, List.foldl_nil, wCfg1_score]
  norm_num [wCfg1]

theorem wSelect_pos : 0 < (specSelect wSearch wCfgs "hello").2 := by
  rw [wSelect_eq]
  norm_num

/-- Claim C1: For every input whose best spec-score is positive,
`classify_intent_v2` returns the intent selected by the spec's
iteration/scoring/tie-break rule, with confidence
`min(1.0, best_score / 8.0)`. -/
theorem classify_follows_spec_scoring (search : String → String → Bool)
    (cfgs : List IntentCfg) (text : String)
    (h0 : pyStrip text ≠ "")
    (hpos : 0 < (specSelect search cfgs text).2) :
    classify_intent_v2 search cfgs text
      = ((specSelect search cfgs text).1,
         min 1 ((specSelect search cfgs text).2 / 8)) := by
  unfold classify_intent_v2
  simp only [h0, if_false]
  rw [classifyFold_eq_specSelect]
  have : ¬ (specSelect search cfgs text).2 ≤ 0 := not_le.mpr hpos
  simp [this]

/-- Witness for C1 at the concrete fixture. -/
theorem classify_follows_spec_scoring_witness :
    pyStrip "hello" ≠ "" ∧ 0 < (specSelect wSearch wCfgs "hello").2 ∧
    classify_intent_v2 wSearch wCfgs "hello"
      = ((specSelect wSearch wCfgs "hello").1,
         min 1 ((specSelect wSearch wCfgs "hello").2 / 8)) :=
  ⟨by decide, wSelect_pos,
   classify_follows_spec_scoring wSearch wCfgs "hello" (by decide) wSelect_pos⟩

/-- Witness for C5 at the concrete whitespace-only input. -/
theorem classify_no_signal_greeting_witness :
    pyStrip "   " = "" ∧
    classify_intent_v2 wSearch wCfgs "   " = ("greeting", 0) :=
  ⟨by decide,
   classify_no_signal_greeting wSearch wCfgs "   " (Or.inl (by decide))⟩

/-! ### Session-machine helpers and claims -/

theorem setSession_self (m : Sessions) (u : String) (s : SessionState) :
    setSession m u s u = some s := by
  unfold setSession
  simp

theorem setSession_other (m : Sessions) (u v : String) (s : SessionState)
    (h : v ≠ u) : setSession m u s v = m v := by
  unfold setSession
  simp [h]

/-- The code's level computation agrees with the spec's threshold rule. -/
theorem levelCode_eq_levelClaim (n : Nat) :
    (if n ≥ 3 then "elevated" else if n = 2 then "moderate" else "low")
      = levelClaim n := by
  unfold levelClaim
  split_ifs <;> first | rfl | omega

/-- Claim C3: Every completed risk screen reports the level determined by
the final score: 0 or 1 → "low", exactly 2 → "moderate",
3 or more → "elevated". -/
theorem answer_risk_threshold_levels (m : Sessions) (u : String)
    (s : SessionState) (a : Answer)
    (h : m u = some s) (hs : s.state = SState.risk_screen)
    (hi : 4 ≤ s.risk_index) :
    (answer_risk m u a).1 =
      Except.ok (RiskPayload.done "done" (scoreAfter s a)
        (levelClaim (scoreAfter s a)) RISK_TIPS
        "Educational only. Not medical advice.") := by
  unfold answer_risk
  rw [h]
  simp only [hs, ne_eq, not_true_eq_false, if_false]
  have hlen : RISK_QUESTIONS.length = 5 := rfl
  have hnot : ¬ (s.risk_index + 1 < RISK_QUESTIONS.length) := by
    rw [hlen]; omega
  rw [dif_neg hnot]
  simp only [scoreAfter, levelCode_eq_levelClaim]

/-- Witness for C3: a session at the last question with two prior
"yes" answers. -/
theorem answer_risk_threshold_levels_witness :
    (setSession initSessions "u1" ⟨"u1", SState.risk_screen, 4, 2⟩) "u1"
      = some ⟨"u1", SState.risk_screen, 4, 2⟩ ∧
    (answer_risk
        (setSession initSessions "u1" ⟨"u1", SState.risk_screen, 4, 2⟩)
        "u1" Answer.yes).1 =
      Except.ok (RiskPayload.done "done"
        (scoreAfter ⟨"u1", SState.risk_screen, 4, 2⟩ Answer.yes)
        (levelClaim (scoreAfter ⟨"u1", SState.risk_screen, 4, 2⟩ Answer.yes))
        RISK_TIPS "Educational only. Not medical advice.") :=
  ⟨by decide,
   answer_risk_threshold_levels
     (setSession initSessions "u1" ⟨"u1", SState.risk_screen, 4, 2⟩)
     "u1" ⟨"u1", SState.risk_screen, 4, 2⟩ Answer.yes
     (by decide) (by decide) (by decide)⟩

/-- The `answer_risk` on an idle session fails and leaves the store
unchanged. -/
theorem answer_risk_idle (m : Sessions) (u : String) (a : Answer)
    (s : SessionState) (h : m u = some s) (hs : s.state = SState.idle) :
    answer_risk m u a = (Except.error noActiveMsg, m) := by
  unfold answer_risk
  rw [h]
  have hne : s.state ≠ SState.risk_screen := by
    rw [hs]
    intro hc
    cases hc
  simp [hne]

/-- A run of `answer_risk` calls on an idle session changes nothing. -/
theorem runAnswers_idle (u : String) (m : Sessions) (s : SessionState)
    (h : m u = some s) (hs : s.state = SState.idle) :
    ∀ as : List Answer, runAnswers m u as = m
  | [] => rfl
  | a :: rest => by
    show runAnswers (answer_risk m u a).2 u rest = m
    have hsnd : (answer_risk m u a).2 = m :=
      congrArg Prod.snd (answer_risk_idle m u a s h hs)
    rw [hsnd]
    exact runAnswers_idle u m s h hs rest

/-- Claim C2: The `answer` call that brings `risk_index` to 5 returns a
"done" payload with the final score and level, resets the user's session
to a fresh idle record, and every subsequent `answer` without an
intervening `start` fails with the no-active-screen error. -/
theorem answer_risk_completion (m : Sessions) (u : String)
    (s : SessionState) (a : Answer)
    (h : m u = some s) (hs : s.state = SState.risk_screen)
    (hi : s.risk_index = 4) :
    (∃ level, (answer_risk m u a).1 =
      Except.ok (RiskPayload.done "done" (scoreAfter s a) level RISK_TIPS
        "Educational only. Not medical advice."))
    ∧ (answer_risk m u a).2 u = some ⟨u, SState.idle, 0, 0⟩
    ∧ ∀ (as' : List Answer) (a' : Answer),
        (answer_risk (runAnswers (answer_risk m u a).2 u as') u a').1
          = Except.error noActiveMsg := by
  have hnot : ¬ (s.risk_index + 1 < RISK_QUESTIONS.length) := by
    have hlen : RISK_QUESTIONS.length = 5 := rfl
    rw [hlen]; omega
  have hsnd : (answer_risk m u a).2 = setSession m u ⟨u, SState.idle, 0, 0⟩ := by
    unfold answer_risk
    rw [h]
    simp only [hs, ne_eq, not_true_eq_false, if_false]
    rw [dif_neg hnot]
  refine ⟨⟨if scoreAfter s a ≥ 3 then "elevated"
           else if scoreAfter s a = 2 then "moderate" else "low", ?_⟩, ?_, ?_⟩
  · unfold answer_risk
    rw [h]
    simp only [hs, ne_eq, not_true_eq_false, if_false]
    rw [dif_neg hnot]
    simp only [scoreAfter]
  · rw [hsnd, setSession_self]
  · intro as' a'
    have hidle : (answer_risk m u a).2 u = some ⟨u, SState.idle, 0, 0⟩ := by
      rw [hsnd, setSession_self]
    rw [runAnswers_idle u (answer_risk m u a).2 ⟨u, SState.idle, 0, 0⟩
      hidle rfl as']
    exact congrArg Prod.fst
      (answer_risk_idle (answer_risk m u a).2 u a' ⟨u, SState.idle, 0, 0⟩
        hidle rfl)

/-- Witness for C2: completing the screen from index 4 and answering
again afterwards. -/
theorem answer_risk_completion_witness :
    (setSession initSessions "u2" ⟨"u2", SState.risk_screen, 4, 0⟩) "u2"
      = some ⟨"u2", SState.risk_screen, 4, 0⟩ ∧
    ((∃ level, (answer_risk
        (setSession initSessions "u2" ⟨"u2", SState.risk_screen, 4, 0⟩)
        "u2" Answer.no).1 =
      Except.ok (RiskPayload.done "done"
        (scoreAfter ⟨"u2", SState.risk_screen, 4, 0⟩ Answer.no) level RISK_TIPS
        "Educational only. Not medical advice."))
    ∧ (answer_risk
        (setSession initSessions "u2" ⟨"u2", SState.risk_screen, 4, 0⟩)
        "u2" Answer.no).2 "u2" = some ⟨"u2", SState.idle, 0, 0⟩
    ∧ (answer_risk
        (runAnswers
          (answer_risk
            (setSession initSessions "u2" ⟨"u2", SState.risk_screen, 4, 0⟩)
            "u2" Answer.no).2 "u2" [Answer.no])
        "u2" Answer.skip).1 = Except.error noActiveMsg) :=
  have happ := answer_risk_completion
    (setSession initSessions "u2" ⟨"u2", SState.risk_screen, 4, 0⟩)
    "u2" ⟨"u2", SState.risk_screen, 4, 0⟩ Answer.no
    (by decide) (by decide) (by decide)
  ⟨by decide, happ.1, happ.2.1, happ.2.2 [Answer.no] Answer.skip⟩

theorem runAnswers_progress (u : String) :
    ∀ (as : List Answer) (m : Sessions) (i c : Nat),
      m u = some ⟨u, SState.risk_screen, i, c⟩ →
      i + as.length < 5 →
      (runAnswers m u as) u
        = some ⟨u, SState.risk_screen, i + as.length, c + countYes as⟩
  | [], m, i, c, h, _ => by
    simpa [runAnswers, countYes] using h
  | a :: rest, m, i, c, h, hlt => by
    have hlen : RISK_QUESTIONS.length = 5 := rfl
    have hlt1 : i + 1 < RISK_QUESTIONS.length := by
      rw [hlen]
      have := rest.length
      simp only [List.length_cons] at hlt
      omega
    have hsnd : (answer_risk m u a).2
        = setSession m u ⟨u, SState.risk_screen, i + 1,
            if a = Answer.yes then c + 1 else c⟩ := by
      unfold answer_risk
      rw [h]
      simp only [ne_eq, not_true_eq_false, if_false]
      rw [dif_pos hlt1]
    have hnext : (answer_risk m u a).2 u
        = some ⟨u, SState.risk_screen, i + 1,
            if a = Answer.yes then c + 1 else c⟩ := by
      rw [hsnd, setSession_self]
    have ih := runAnswers_progress u rest (answer_risk m u a).2 (i + 1)
      (if a = Answer.yes then c + 1 else c) hnext
      (by simp only [List.length_cons] at hlt; omega)
    show (runAnswers (answer_risk m u a).2 u rest) u = _
    rw [ih]
    congr 1
    have hcount : countYes (a :: rest)
        = countYes rest + (if a == Answer.yes then 1 else 0) := by
      unfold countYes
      rw [List.countP_cons]
    cases a <;> simp [hcount, countYes] <;> omega

/-- Claim C4: After `start` and `k < 5` consecutive `answer` calls, the
user's session has `risk_index = k` and `risk_score` equal to the number
of "yes" answers among them. -/
theorem risk_session_progression (m : Sessions) (u : String)
    (as : List Answer) (h : as.length < 5) :
    (runAnswers (start_risk_screen m u).2 u as) u
      = some ⟨u, SState.risk_screen, as.length, countYes as⟩ := by
  have h0 : (start_risk_screen m u).2 u
      = some ⟨u, SState.risk_screen, 0, 0⟩ := by
    unfold start_risk_screen
    exact setSession_self m u _
  have := runAnswers_progress u as (start_risk_screen m u).2 0 0 h0
    (by omega)
  simpa using this

/-- Witness for C4: two answers (yes then no) after a fresh start. -/
theorem risk_session_progression_witness :
    ([Answer.yes, Answer.no].length < 5) ∧
    (runAnswers (start_risk_screen initSessions "u3").2 "u3"
        [Answer.yes, Answer.no]) "u3"
      = some ⟨"u3", SState.risk_screen, [Answer.yes, Answer.no].length,
          countYes [Answer.yes, Answer.no]⟩ :=
  ⟨by decide,
   risk_session_progression initSessions "u3" [Answer.yes, Answer.no]
     (by decide)⟩

/-! ### Registry invariant (C10) -/

theorem registryInvariant_init : RegistryInvariant initSessions := by
  intro u s h
  exact absurd h (by simp [initSessions])

theorem registryInvariant_setSession (m : Sessions) (u : String)
    (s : SessionState) (hm : RegistryInvariant m) (hs : SessionInvariant s) :
    RegistryInvariant (setSession m u s) := by
  intro v t ht
  by_cases hv : v = u
  · subst hv
    rw [setSession_self] at ht
    cases ht
    exact hs
  · rw [setSession_other m u v s hv] at ht
    exact hm v t ht

theorem registryInvariant_step (m : Sessions) (op : Op)
    (hm : RegistryInvariant m) : RegistryInvariant (applyOp m op) := by
  cases op with
  | start u =>
    exact registryInvariant_setSession m u _ hm (by
      constructor
      · exact le_refl 0
      constructor
      · exact Nat.zero_le 4
      · intro h
        cases h)
  | stop u =>
    exact registryInvariant_setSession m u _ hm (by
      refine ⟨le_refl 0, Nat.zero_le 4, fun _ => ⟨rfl, rfl⟩⟩)
  | answer u a =>
    show RegistryInvariant (answer_risk m u a).2
    unfold answer_risk
    cases hmu : m u with
    | none => exact hm
    | some session =>
      by_cases hstate : session.state = SState.risk_screen
      · obtain ⟨hsc, hidx, _⟩ := hm u session hmu
        simp only [hstate, ne_eq, not_true_eq_false, if_false]
        by_cases hlt : session.risk_index + 1 < RISK_QUESTIONS.length
        · rw [dif_pos hlt]
          refine registryInvariant_setSession m u _ hm ?_
          refine ⟨?_, ?_, ?_⟩
          · by_cases ha : a = Answer.yes <;> simp [ha] <;> omega
          · have hlen : RISK_QUESTIONS.length = 5 := rfl
            rw [hlen] at hlt
            simpa using Nat.lt_succ_iff.mp (by omega)
          · intro hcontra
            simp at hcontra
        · rw [dif_neg hlt]
          exact registryInvariant_setSession m u _ hm
            ⟨le_refl 0, Nat.zero_le 4, fun _ => ⟨rfl, rfl⟩⟩
      · simp only [hstate, ne_eq, not_false_iff, if_true]
        exact hm

theorem registryInvariant_fold (m : Sessions) (hm : RegistryInvariant m) :
    ∀ ops : List Op, RegistryInvariant (ops.foldl applyOp m)
  | [] => hm
  | op :: rest =>
    registryInvariant_fold (applyOp m op) (registryInvariant_step m op hm) rest

/-- Claim C10: After any sequence of start/answer/stop calls starting from
the empty store, every stored session record satisfies
`risk_score ≤ risk_index ≤ 4`, an idle record has index and score `0`,
and in particular no stored record ever has `risk_index = 5`. -/
theorem registry_invariant_holds (ops : List Op) (u : String)
    (s : SessionState) (h : runOps ops u = some s) :
    s.risk_score ≤ s.risk_index ∧ s.risk_index ≤ 4 ∧
    (s.state = SState.idle → s.risk_index = 0 ∧ s.risk_score = 0) ∧
    s.risk_index ≠ 5 := by
  have hinv := registryInvariant_fold initSessions registryInvariant_init ops
    u s h
  obtain ⟨h1, h2, h3⟩ := hinv
  exact ⟨h1, h2, h3, by omega⟩

/-- Witness for C10: start then one "yes" answer. -/
theorem registry_invariant_holds_witness :
    runOps [Op.start "u4", Op.answer "u4" Answer.yes] "u4"
      = some ⟨"u4", SState.risk_screen, 1, 1⟩ ∧
    ((⟨"u4", SState.risk_screen, 1, 1⟩ : SessionState).risk_score
        ≤ (⟨"u4", SState.risk_screen, 1, 1⟩ : SessionState).risk_index ∧
     (⟨"u4", SState.risk_screen, 1, 1⟩ : SessionState).risk_index ≤ 4 ∧
     ((⟨"u4", SState.risk_screen, 1, 1⟩ : SessionState).state = SState.idle →
       (⟨"u4", SState.risk_screen, 1, 1⟩ : SessionState).risk_index = 0 ∧
       (⟨"u4", SState.risk_screen, 1, 1⟩ : SessionState).risk_score = 0) ∧
     (⟨"u4", SState.risk_screen, 1, 1⟩ : SessionState).risk_index ≠ 5) :=
  ⟨by decide,
   registry_invariant_holds [Op.start "u4", Op.answer "u4" Answer.yes] "u4"
     ⟨"u4", SState.risk_screen, 1, 1⟩ (by decide)⟩

/-! ### Composer and chat claims -/

theorem append_ne_empty_of_right (s t : String) (ht : t.length ≠ 0) :
    s ++ t ≠ "" := by
  intro h
  have h2 := congrArg String.length h
  rw [String.length_append] at h2
  have h0 : ("" : String).length = 0 := rfl
  rw [h0] at h2
  omega

/-- Claim C7: `response_for_intent` always returns a non-empty reply that
ends with the fixed disclaimer suffix. -/
theorem compose_nonempty_with_disclaimer (csv : CsvKnowledge)
    (intent user_text : String) :
    response_for_intent csv intent user_text ≠ "" ∧
    ∃ base, response_for_intent csv intent user_text = base ++ DISCLAIMER := by
  unfold response_for_intent
  refine ⟨append_ne_empty_of_right _ _ (by decide), _, rfl⟩

/-- Claim C9: While a user's session is in the risk screen, `chat` returns
the fixed redirect with intent `"risk_screen"` and only the classifier's
confidence, and leaves the session store unchanged. -/
theorem chat_redirect_during_screen (search : String → String → Bool)
    (cfgs : List IntentCfg) (csv : CsvKnowledge) (m : Sessions)
    (u message : String) (s : SessionState)
    (h : m u = some s) (hs : s.state = SState.risk_screen) :
    chat search cfgs csv m u message
      = (⟨RISK_REDIRECT, "risk_screen",
          (classify_intent_v2 search cfgs message).2⟩, m) := by
  unfold chat
  rw [h]
  simp [hs]

/-- Witness for C9: a user mid-screen sending a chat message. -/
theorem chat_redirect_during_screen_witness :
    (setSession initSessions "u5" ⟨"u5", SState.risk_screen, 2, 1⟩) "u5"
      = some ⟨"u5", SState.risk_screen, 2, 1⟩ ∧
    chat wSearch wCfgs wCsv
        (setSession initSessions "u5" ⟨"u5", SState.risk_screen, 2, 1⟩)
        "u5" "hello"
      = (⟨RISK_REDIRECT, "risk_screen",
          (classify_intent_v2 wSearch wCfgs "hello").2⟩,
         setSession initSessions "u5" ⟨"u5", SState.risk_screen, 2, 1⟩) :=
  ⟨by decide,
   chat_redirect_during_screen wSearch wCfgs wCsv
     (setSession initSessions "u5" ⟨"u5", SState.risk_screen, 2, 1⟩)
     "u5" "hello" ⟨"u5", SState.risk_screen, 2, 1⟩ (by decide) (by decide)⟩

/-- Claim C6, counterexample: The best entry has an empty answer summary
and the non-empty source "CDC"; the claim's rule renders `some "CDC"`,
but the code renders `none` and composition falls through to the generic
transmission answer even though not both fields are empty. -/
theorem csv_render_counterexample :
    bestCsvEntry (csvC6 "transmission") "hi" = some ⟨"", "", "CDC"⟩ ∧
    renderClaim ⟨"", "", "CDC"⟩ = some "CDC" ∧
    pick_csv_answer csvC6 "transmission" "hi" = none ∧
    response_for_intent csvC6 "transmission" "hi"
      = genericAnswer "transmission" ++ DISCLAIMER := by
  refine ⟨by decide, by decide, by decide, ?_⟩
  have hp : pick_csv_answer csvC6 "transmission" "hi" = none := by decide
  unfold response_for_intent
  rw [hp]

theorem bestCsvEntry_nil (user_text : String) :
    bestCsvEntry [] user_text = none := rfl

/-- Claim C6, amended: For every intent with at least one knowledge record,
the chosen best entry is rendered as "ans (Source: src)" when both
fields are non-empty, otherwise as just the answer summary when it is
non-empty; whenever the answer summary is empty (even with a non-empty
source) composition falls through to the generic per-intent answer, and
whenever it is non-empty the rendered entry (always itself non-empty) is
used. -/
theorem csv_render_amended (csv : CsvKnowledge) (intent user_text : String)
    (e : CsvEntry) (h : bestCsvEntry (csv intent) user_text = some e) :
    pick_csv_answer csv intent user_text = renderAmended e ∧
    (pyStrip e.answer_summary = "" →
      response_for_intent csv intent user_text
        = genericAnswer intent ++ DISCLAIMER) ∧
    (pyStrip e.answer_summary ≠ "" →
      ∃ r, pick_csv_answer csv intent user_text = some r ∧ r ≠ "" ∧
        response_for_intent csv intent user_text = r ++ DISCLAIMER) := by
  have hne : ¬ (csv intent = []) := by
    intro h0
    rw [h0, bestCsvEntry_nil] at h
    exact Option.noConfusion h
  have hpick : pick_csv_answer csv intent user_text = renderCsvEntry e := by
    unfold pick_csv_answer
    simp only [hne, if_false]
    rw [h]
  refine ⟨hpick, ?_, ?_⟩
  · intro hans
    have hnone : renderCsvEntry e = none := by
      unfold renderCsvEntry
      simp [hans]
    unfold response_for_intent
    rw [hpick, hnone]
  · intro hans
    by_cases hsrc : pyStrip e.source = ""
    · refine ⟨pyStrip e.answer_summary, ?_, hans, ?_⟩
      · rw [hpick]
        unfold renderCsvEntry
        simp [hans, hsrc]
      · unfold response_for_intent
        rw [hpick]
        have : renderCsvEntry e = some (pyStrip e.answer_summary) := by
          unfold renderCsvEntry
          simp [hans, hsrc]
        rw [this]
        simp [hans]
    · refine ⟨pyStrip e.answer_summary ++ " (Source: "
          ++ pyStrip e.source ++ ")", ?_, ?_, ?_⟩
      · rw [hpick]
        unfold renderCsvEntry
        simp [hans, hsrc]
      · apply append_ne_empty_of_right
        decide
      · unfold response_for_intent
        rw [hpick]
        have hr : renderCsvEntry e = some (pyStrip e.answer_summary
            ++ " (Source: " ++ pyStrip e.source ++ ")") := by
          unfold renderCsvEntry
          simp [hans, hsrc]
        rw [hr]
        have hne2 : ¬ (pyStrip e.answer_summary ++ " (Source: "
            ++ pyStrip e.source ++ ")" = "") := by
          apply append_ne_empty_of_right
          decide
        simp only [hne2, if_false]

/-- Witness for the amended C6 at the fully populated record. -/
theorem csv_render_amended_witness :
    bestCsvEntry (csvW "testing") "q1" = some ⟨"q1", "Ans", "CDC"⟩ ∧
    (pick_csv_answer csvW "testing" "q1"
        = renderAmended ⟨"q1", "Ans", "CDC"⟩ ∧
     (pyStrip ("Ans" : String) = "" →
       response_for_intent csvW "testing" "q1"
         = genericAnswer "testing" ++ DISCLAIMER) ∧
     (pyStrip ("Ans" : String) ≠ "" →
       ∃ r, pick_csv_answer csvW "testing" "q1" = some r ∧ r ≠ "" ∧
         response_for_intent csvW "testing" "q1" = r ++ DISCLAIMER)) :=
  ⟨by decide,
   csv_render_amended csvW "testing" "q1" ⟨"q1", "Ans", "CDC"⟩ (by decide)⟩

end HepB
